import Mathlib

/-!
Shallow embedding of the editorjs-image block tool (src/index.ts, src/ui.ts,
src/utils/dom.ts) and verification of its specification claims.

JavaScript values are modelled as follows: possibly-absent (undefined/null)
properties become `Option`; DOM integer layout readings (`clientWidth`,
`clientHeight`, intrinsic media sizes) become `Nat`; fractional DOM numbers
(`getBoundingClientRect`, style pixel values, the aspect ratio) become `ℚ`;
a JavaScript runtime fault (TypeError on a property access of `undefined`)
becomes the error branch of `Except`.
-/

namespace ImageToolSpec

/-- Saved `file` object: an open mapping whose only interpreted key is
`url`; the property may be absent (`none` = undefined). -/
structure FileData where
  url : Option String
deriving DecidableEq, Repr

/-- Persisted block data (`ImageToolData`): `caption`, legacy `width` and
`height` strings, and the `file` object. Any field may be absent in
candidate data handed to the tool. -/
structure ImageToolData where
  caption : Option String
  width : Option String
  height : Option String
  file : Option FileData
deriving DecidableEq, Repr

/-- JavaScript runtime error raised by an unguarded property access. -/
inductive JsError where
  | typeError (message : String)
deriving DecidableEq, Repr

/-- JavaScript truthiness `!!x` of a possibly-absent string property:
`undefined` and the empty string are falsy, every other string is truthy. -/
def jsTruthyStr : Option String → Bool
  | none => false
  | some s => s != ""

/-- Embedding of `ImageTool.validate` (index.ts, `return !!savedData.file.url`).
The access `savedData.file.url` is unguarded: when the `file` property is
absent, reading `.url` of `undefined` throws a TypeError, modelled as the
`Except.error` branch; otherwise the result is the truthiness of `url`. -/
def validate (savedData : ImageToolData) : Except JsError Bool :=
  match savedData.file with
  | none => .error (.typeError "Cannot read properties of undefined")
  | some f => .ok (jsTruthyStr f.url)

/-- Layout readings of the live media element consumed by `save`:
DOM `clientWidth` and `clientHeight` are non-negative integers. -/
structure MediaLayout where
  clientWidth : Nat
  clientHeight : Nat
deriving DecidableEq, Repr

/-- Live UI readings `ImageTool.save` consumes: the caption node's
`textContent` (possibly null) and the optional media element
`this.ui.nodes.imageEl`. -/
structure SaveEnv where
  captionTextContent : Option String
  imageEl : Option MediaLayout
deriving DecidableEq, Repr

/-- Embedding of JavaScript `String.prototype.trim`. -/
def trimJS (s : String) : String := s.trim

/-- Embedding of JavaScript `String(n)` for a DOM integer dimension. -/
def jsStringOfNat (n : Nat) : String := toString n

/-- The value of `image?.clientWidth ?? 0` in `save` (index.ts). -/
def currentW (env : SaveEnv) : Nat :=
  match env.imageEl with
  | some img => img.clientWidth
  | none => 0

/-- The value of `image?.clientHeight ?? 0` in `save` (index.ts). -/
def currentH (env : SaveEnv) : Nat :=
  match env.imageEl with
  | some img => img.clientHeight
  | none => 0

/-- Embedding of `ImageTool.save` (index.ts lines 223-243), acting on the
internal `_data` and returning it (`save` ends with `return this.data`,
the getter for `_data`): the caption is re-read from the DOM, and the
`width`/`height` fields are overwritten with `String(clientWidth)` /
`String(clientHeight)` only when both readings are strictly positive. -/
def save (d : ImageToolData) (env : SaveEnv) : ImageToolData :=
  let caption :=
    match env.captionTextContent with
    | some t => trimJS t
    | none => ""
  let d1 : ImageToolData := { d with caption := some caption }
  if 0 < currentW env ∧ 0 < currentH env then
    { d1 with
      width := some (jsStringOfNat (currentW env)),
      height := some (jsStringOfNat (currentH env)) }
  else d1

/-- Suffix test on strings, computed on the character lists so that it
evaluates by kernel reduction. -/
def strEndsWith (s suffixStr : String) : Bool :=
  suffixStr.data.isSuffixOf s.data

/-- Embedding of the source's video test (ui.ts, the regular expression
matching a literal dot followed by mp4 at the end of the url). -/
def isVideoUrl (url : String) : Bool := strEndsWith url ".mp4"

/-- The tag chosen by `Ui.fillImage` (ui.ts line 220). -/
def fillImageTag (url : String) : String :=
  if isVideoUrl url then "VIDEO" else "IMG"

/-- A DOM attribute value as used by `make`: a string or a boolean. -/
inductive AttrValue where
  | str (s : String)
  | boolean (b : Bool)
deriving DecidableEq, Repr

/-- The attribute map `Ui.fillImage` passes to `make` (ui.ts lines 222-253):
`src`, `loading`, `decoding` always; the five playback attributes are added
when the tag is VIDEO. -/
def fillImageAttributes (url : String) : List (String × AttrValue) :=
  let base := [("src", AttrValue.str url), ("loading", AttrValue.str "lazy"),
               ("decoding", AttrValue.str "async")]
  if fillImageTag url = "VIDEO" then
    base ++ [("autoplay", AttrValue.boolean true), ("loop", AttrValue.boolean true),
             ("muted", AttrValue.boolean true), ("playsinline", AttrValue.boolean true),
             ("controls", AttrValue.boolean true)]
  else base

/-- The ready-event name chosen by `Ui.fillImage` (ui.ts lines 234-252):
`loadeddata` for a video url, `load` otherwise. -/
def eventNameFor (url : String) : String :=
  if isVideoUrl url then "loadeddata" else "load"

/-- One DOM event-listener registration: target element id, event name,
handler id. -/
structure ListenerReg where
  target : Nat
  eventName : String
  handler : Nat
deriving DecidableEq, Repr

/-- DOM `addEventListener`: registering an identical (target, event,
handler) triple twice is a no-op. -/
def addEventListener (ls : List ListenerReg) (t : Nat) (ev : String) (h : Nat) :
    List ListenerReg :=
  if ls.contains ⟨t, ev, h⟩ then ls else ls ++ [⟨t, ev, h⟩]

/-- DOM `removeEventListener`: removes the matching registration if present. -/
def removeEventListener (ls : List ListenerReg) (t : Nat) (ev : String) (h : Nat) :
    List ListenerReg :=
  ls.eraseP (fun r => r.target == t && r.eventName == ev && r.handler == h)

/-- The parts of the `Ui` instance state relevant to listener bookkeeping:
a fresh-id counter for element and handler identities, the current
`nodes.imageEl`, the stored `imageLoadHandler` and `imageErrorHandler`
references, and the set of live DOM listener registrations. -/
structure UiListenerState where
  nextId : Nat
  imageEl : Option Nat
  imageLoadHandler : Option Nat
  imageErrorHandler : Option Nat
  listeners : List ListenerReg
deriving DecidableEq, Repr

/-- A freshly constructed `Ui`: no media element, no stored handlers. -/
def initialUiListenerState : UiListenerState :=
  { nextId := 0, imageEl := none, imageLoadHandler := none,
    imageErrorHandler := none, listeners := [] }

/-- Embedding of the listener bookkeeping of `Ui.fillImage`
(ui.ts lines 216-332), in source order: the new element is created by
`make` and assigned to `this.nodes.imageEl` first (line 258); the cleanup
block (lines 264-270) then calls `removeEventListener` on
`this.nodes.imageEl` — which at that point is already the new element;
finally fresh load and error closures are stored in `imageLoadHandler` /
`imageErrorHandler` and attached to the new element (lines 331-332). -/
def fillImageListeners (st : UiListenerState) (url : String) : UiListenerState :=
  let ev := eventNameFor url
  let newEl := st.nextId
  let imageEl : Option Nat := some newEl
  let ls1 :=
    match st.imageLoadHandler, imageEl with
    | some h, some el => removeEventListener st.listeners el ev h
    | _, _ => st.listeners
  let ls2 :=
    match st.imageErrorHandler, imageEl with
    | some h, some el => removeEventListener ls1 el "error" h
    | _, _ => ls1
  let loadH := st.nextId + 1
  let errH := st.nextId + 2
  let ls3 := addEventListener ls2 newEl ev loadH
  let ls4 := addEventListener ls3 newEl "error" errH
  { nextId := st.nextId + 3, imageEl := imageEl,
    imageLoadHandler := some loadH, imageErrorHandler := some errH,
    listeners := ls4 }

/-- A CSS size value written to an inline style: `auto` or a pixel count. -/
inductive CssSize where
  | auto
  | px (value : ℚ)
deriving DecidableEq, Repr

/-- Whether the displayed media element is an image or a video; the resize
code treats both identically. -/
inductive MediaKind where
  | image
  | video
deriving DecidableEq, Repr

/-- The element's `getBoundingClientRect()` readings used by the resize
code: fractional left and right edges and width. -/
structure DomRect where
  left : ℚ
  right : ℚ
  width : ℚ
deriving DecidableEq, Repr

/-- The displayed media element as seen by `resizeImage`: its kind, its
bounding rectangle, and its inline width/height styles. -/
structure MediaElement where
  kind : MediaKind
  rect : DomRect
  styleWidth : Option CssSize
  styleHeight : Option CssSize
deriving DecidableEq, Repr

/-- Which resize handle the drag session is bound to. -/
inductive Align where
  | left
  | right
deriving DecidableEq, Repr

/-- The parts of the `Ui` state read and written by `resizeImage`: the
active-resizing flag and the optional displayed element. -/
structure ResizeState where
  isResizing : Bool
  imageEl : Option MediaElement
deriving DecidableEq, Repr

/-- The handle-relative pointer offset computed by `resizeImage`
(ui.ts lines 363-367): `rect.left - e.clientX` for the left handle,
`e.clientX - rect.right` for the right handle. -/
def resizeOffset (rect : DomRect) (clientX : ℚ) : Align → ℚ
  | .left => rect.left - clientX
  | .right => clientX - rect.right

/-- Embedding of `Ui.resizeImage` (ui.ts lines 357-377): a no-op unless a
resize session is active and an element is displayed; otherwise computes
the handle-relative offset, clamps the new width at 30, and writes the
width and `height: auto` inline styles. -/
def resizeImage (st : ResizeState) (clientX : ℚ) (align : Align) : ResizeState :=
  if st.isResizing = false then st
  else
    match st.imageEl with
    | none => st
    | some el =>
      let newWidth := max (el.rect.width + resizeOffset el.rect clientX align) 30
      { st with
        imageEl := some { el with
          styleWidth := some (.px newWidth),
          styleHeight := some .auto } }

/-- Characters skipped by JavaScript `parseInt` before the number. -/
def isJsSpace (c : Char) : Bool :=
  c = ' ' || c = '\t' || c = '\n' || c = '\r' || c = '\x0b' || c = '\x0c'

/-- Numeric value of a run of decimal digits. -/
def digitsVal (ds : List Char) : Nat :=
  ds.foldl (fun a c => a * 10 + (c.toNat - '0'.toNat)) 0

/-- Longest leading run of decimal digits. -/
def leadingDigits (cs : List Char) : List Char := cs.takeWhile Char.isDigit

/-- Embedding of JavaScript `parseInt(s, 10)`: skip leading whitespace,
accept an optional sign, read the longest leading digit run and ignore the
rest of the string; when no digit is read the result is NaN, modelled as
`none`. -/
def parseIntJS (s : String) : Option Int :=
  let cs := s.data.dropWhile isJsSpace
  match cs with
  | '-' :: rest =>
    let ds := leadingDigits rest
    if ds.isEmpty then none else some (-(digitsVal ds : Int))
  | '+' :: rest =>
    let ds := leadingDigits rest
    if ds.isEmpty then none else some (digitsVal ds : Int)
  | _ =>
    let ds := leadingDigits cs
    if ds.isEmpty then none else some (digitsVal ds : Int)

/-- The UI status classes toggled by `toggleStatus` (ui.ts). -/
inductive UiStatus where
  | empty
  | uploading
  | filled
deriving DecidableEq, Repr

/-- Intrinsic dimensions reported by the loaded asset: `naturalWidth` /
`naturalHeight` for an image, `videoWidth` / `videoHeight` for a video. -/
structure LoadedMedia where
  intrinsicWidth : Nat
  intrinsicHeight : Nat
deriving DecidableEq, Repr

/-- The parts of the `Ui` state read and written by the load-event handler
installed by `fillImage`: the status, the stored aspect ratio (the
source's `contentRatio` field, height over width), the element's inline
styles, and whether the preloader has been hidden (`display: none`). -/
structure FillState where
  status : UiStatus
  contentRatioHW : ℚ
  styleWidth : Option CssSize
  styleHeight : Option CssSize
  preloaderHidden : Bool
deriving DecidableEq, Repr

/-- Embedding of the load-event handler installed by `Ui.fillImage`
(ui.ts lines 276-313): mark the status `filled`, store the aspect ratio
intrinsic-height / intrinsic-width, then — only when a saved width string
is present and `parseInt(width, 10) > 0` (a NaN comparison is false) —
write the parsed value as the inline pixel width with `height: auto`;
finally hide the preloader. -/
def imageLoadHandler (media : LoadedMedia) (savedWidth : Option String)
    (st : FillState) : FillState :=
  let st1 : FillState :=
    { st with
      status := .filled,
      contentRatioHW := (media.intrinsicHeight : ℚ) / (media.intrinsicWidth : ℚ) }
  let st2 : FillState :=
    match savedWidth with
    | none => st1
    | some w =>
      match parseIntJS w with
      | some n =>
        if 0 < n then
          { st1 with styleWidth := some (.px (n : ℚ)), styleHeight := some .auto }
        else st1
      | none => st1
  { st2 with preloaderHidden := true }

/-- Embedding of the source's `isNotEmpty` (index.ts lines 419-421):
false for null/undefined, otherwise whether the trimmed string is
non-empty. -/
def isNotEmpty : Option String → Bool
  | none => false
  | some s => trimJS s != ""

/-- Caller-supplied configuration fields copied or consumed by the
constructor's config derivation; `showCaption` is the caller's
caption-visibility value. -/
structure CallerConfig where
  captionPlaceholder : Option String
  buttonContent : Option String
  showCaption : Option Bool
  field : Option String
  types : Option String
deriving Repr

/-- The configuration object the constructor builds and hands to the `Ui`;
`showCaption` is always set by the constructor. -/
structure BuiltConfig where
  captionPlaceholder : String
  buttonContent : Option String
  showCaption : Option Bool
  field : Option String
  types : Option String
deriving Repr

/-- Embedding of the config derivation in the `ImageTool` constructor
(index.ts lines 128-141); `t` is the host's `api.i18n.t`. The caller's
`showCaption` value is not copied: the constructor always recomputes the
field as `!this.readOnly || this.isNotEmpty(data.caption)`. -/
def buildConfig (t : String → String) (cfg : CallerConfig) (readOnly : Bool)
    (dataCaption : Option String) : BuiltConfig :=
  { captionPlaceholder := t (cfg.captionPlaceholder.getD "Enter a caption"),
    buttonContent := cfg.buttonContent,
    showCaption := some (!readOnly || isNotEmpty dataCaption),
    field := cfg.field,
    types := cfg.types }

/-- Embedding of the caption-append decision in `Ui.fillImage`
(ui.ts lines 347-349): the caption node is appended when
`this.config.showCaption ?? true` holds. -/
def captionAppended (cfg : BuiltConfig) : Bool := cfg.showCaption.getD true

/-- Normalized upload response envelope: the success flag (the wire values
0 and 1 embedded as a boolean, since JavaScript truthiness of 0|1 is
exactly equality with 1) and the optional file payload. -/
structure UploadResponse where
  success : Bool
  file : Option FileData
deriving DecidableEq, Repr

/-- The parts of the Coordinator-and-UI state touched by the upload
failure path: the read-only flag, the stored `_data.file`, the UI status,
the preloader's `backgroundImage` (empty string when cleared), whether the
upload-trigger button is in the wrapper, and how many error notifications
have been shown. -/
structure BlockState where
  readOnly : Bool
  dataFile : Option FileData
  status : UiStatus
  preloaderBackgroundImage : String
  fileButtonAttached : Bool
  notificationsShown : Nat
deriving DecidableEq, Repr

/-- Embedding of `Ui.hidePreloader` (ui.ts lines 205-208): clear the
preview and switch to the empty status. -/
def hidePreloader (st : BlockState) : BlockState :=
  { st with preloaderBackgroundImage := "", status := .empty }

/-- Embedding of `Ui.addFileButton` (ui.ts lines 402-407): append the
upload-trigger button, but only when not in read-only mode. -/
def addFileButton (st : BlockState) : BlockState :=
  if st.readOnly then st else { st with fileButtonAttached := true }

/-- Embedding of `ImageTool.uploadingFailed` (index.ts lines 383-392):
show one error notification via the host notifier, hide the preloader,
re-add the upload-trigger button. -/
def uploadingFailed (st : BlockState) : BlockState :=
  addFileButton
    (hidePreloader { st with notificationsShown := st.notificationsShown + 1 })

/-- Embedding of `ImageTool.onUpload` (index.ts lines 371-377): on
`response.success && Boolean(response.file)` store the response file as
the new `_data.file` (the `image` setter, index.ts lines 359-365, which
then hands the url to the UI); otherwise run `uploadingFailed`. -/
def onUpload (st : BlockState) (response : UploadResponse) : BlockState :=
  if response.success && response.file.isSome then
    { st with dataFile := response.file }
  else uploadingFailed st

/-! Concrete example values used by counterexamples and witnesses. -/

/-- Legacy block data carrying previously saved dimensions. -/
def dLegacy : ImageToolData :=
  { caption := some "old", width := some "640", height := some "480",
    file := some { url := some "https://x/y.png" } }

/-- Save environment of a detached or not-yet-laid-out block: no media
element, so both layout readings fall back to 0. -/
def envDetached : SaveEnv :=
  { captionTextContent := some " caption ", imageEl := none }

/-- Block data of a freshly loaded image that was never sized before. -/
def dFresh : ImageToolData :=
  { caption := some "", width := none, height := none,
    file := some { url := some "https://x/y.png" } }

/-- Save environment of a loaded block whose element renders at 200 by 100
pixels; the surrounding block container is 400 pixels wide (a quantity
`save` never reads). -/
def envLoaded : SaveEnv :=
  { captionTextContent := some "",
    imageEl := some { clientWidth := 200, clientHeight := 100 } }

/-- Modelled from the spec (refinement target, not from the code): the
persisted width the claim asserts, round(p/c*100) rendered as a string,
where p is the rendered pixel width and c the block container width, both
non-negative integers. Half-up rounding (JavaScript `Math.round`) of
100*p/c is written as floor((2*100*p + c) / (2*c)) in integer
arithmetic. -/
def specSavedWidthPercent (p c : Nat) : String :=
  toString ((p * 100 * 2 + c) / (c * 2))

/-- Candidate saved data with a well-formed non-empty asset url. -/
def validData : ImageToolData :=
  { caption := none, width := none, height := none,
    file := some { url := some "https://x/y.png" } }

/-- C1: if the live element's current rendered width or height reading is
zero — including the case where no media element exists, where both
readings fall back to 0 — `save` leaves the stored `width` and `height`
fields of the block data unchanged (absent stays absent, old values stay
old values); equivalently, the fields are updated only when both readings
are strictly positive, so a 0/0 pair is never written. -/
theorem save_dimension_guard (d : ImageToolData) (env : SaveEnv)
    (h : ¬ (0 < currentW env ∧ 0 < currentH env)) :
    (save d env).width = d.width ∧ (save d env).height = d.height := by
  unfold save
  simp [h]

/-- Witness for C1: a save on a detached legacy block keeps its old
dimensions. -/
theorem save_dimension_guard_witness :
    (¬ (0 < currentW envDetached ∧ 0 < currentH envDetached)) ∧
    (save dLegacy envDetached).width = dLegacy.width ∧
    (save dLegacy envDetached).height = dLegacy.height :=
  ⟨by decide, save_dimension_guard dLegacy envDetached (by decide)⟩

/-- C2 counterexample: saving a block whose element renders at 200 by 100
pixels inside a 400-pixel container persists `width = "200"` (the raw
pixel reading, not the percentage `"50"` = round(200/400*100) the claim
asserts) and also persists `height = "100"`, although the claim says new
saves never write `height`. -/
theorem save_percent_claim_counterexample :
    specSavedWidthPercent 200 400 = "50" ∧
    (save dFresh envLoaded).width = some "200" ∧
    (save dFresh envLoaded).height = some "100" ∧
    ¬ ((save dFresh envLoaded).width = some (specSavedWidthPercent 200 400) ∧
       (save dFresh envLoaded).height = none) := by
  refine ⟨by decide, by decide, by decide, ?_⟩
  intro hcl
  have h1 : (save dFresh envLoaded).width = some "200" := by decide
  have h2 : specSavedWidthPercent 200 400 = "50" := by decide
  rw [h1, h2] at hcl
  exact absurd hcl.1 (by decide)

/-- C2 amended: for every save performed while the media element reports
strictly positive rendered width and height, the persisted `width` equals
`String(clientWidth)` — the raw pixel width, with no percentage conversion
and no use of the container width — and the persisted data also contains
`height = String(clientHeight)`. -/
theorem save_writes_raw_pixels (d : ImageToolData) (env : SaveEnv)
    (h : 0 < currentW env ∧ 0 < currentH env) :
    (save d env).width = some (jsStringOfNat (currentW env)) ∧
    (save d env).height = some (jsStringOfNat (currentH env)) := by
  unfold save
  simp [h]

/-- Witness for the amended C2: the 200 by 100 save persists "200"/"100". -/
theorem save_writes_raw_pixels_witness :
    (0 < currentW envLoaded ∧ 0 < currentH envLoaded) ∧
    (save dFresh envLoaded).width = some (jsStringOfNat 200) ∧
    (save dFresh envLoaded).height = some (jsStringOfNat 100) :=
  ⟨by decide, save_writes_raw_pixels dFresh envLoaded (by decide)⟩

/-- C9: on data that does carry a `file` object, `validate` returns the
truthiness of its `url`: false when the url is absent or empty, true when
it is a non-empty string. -/
theorem validate_url_truthiness (d : ImageToolData) (f : FileData)
    (h : d.file = some f) :
    validate d = Except.ok (jsTruthyStr f.url) ∧
    ((f.url = none ∨ f.url = some "") → validate d = Except.ok false) ∧
    (∀ s, f.url = some s → s ≠ "" → validate d = Except.ok true) := by
  refine ⟨by simp [validate, h], ?_, ?_⟩
  · rintro (hu | hu) <;> simp [validate, h, hu, jsTruthyStr]
  · intro s hs hne
    simp [validate, h, hs, jsTruthyStr, hne]

/-- Witness for C9: validate accepts `{file: {url: "https://x/y.png"}}`. -/
theorem validate_url_truthiness_witness :
    validate validData = Except.ok true :=
  (validate_url_truthiness validData { url := some "https://x/y.png" } rfl).2.2
    "https://x/y.png" rfl (by decide)

/-- C10: `validate` is not total: on candidate data that lacks the `file`
field entirely (the empty object), the unguarded access
`savedData.file.url` reaches the TypeError branch instead of returning
false. -/
theorem validate_missing_file_faults :
    validate { caption := none, width := none, height := none, file := none } =
      Except.error (JsError.typeError "Cannot read properties of undefined") :=
  rfl

/-- C3 (code bug): after a second `fillImage` call on the same `Ui`
instance, the first media element (id 0, with its load handler 1 and error
handler 2) still carries both of its listeners, because the cleanup block
runs after `this.nodes.imageEl` has already been reassigned to the new
element and therefore removes nothing; the previously displayed element's
listeners can still fire. -/
theorem fillImage_stale_listeners :
    (fillImageListeners (fillImageListeners initialUiListenerState
        "https://x/a.png") "https://x/b.png").imageEl = some 3 ∧
    ListenerReg.mk 0 "load" 1 ∈
      (fillImageListeners (fillImageListeners initialUiListenerState
        "https://x/a.png") "https://x/b.png").listeners ∧
    ListenerReg.mk 0 "error" 2 ∈
      (fillImageListeners (fillImageListeners initialUiListenerState
        "https://x/a.png") "https://x/b.png").listeners := by
  decide

/-- Media element used by the resize witness: a video, showing the rule is
identical for both kinds. -/
def elDemo : MediaElement :=
  { kind := .video, rect := { left := 10, right := 110, width := 100 },
    styleWidth := none, styleHeight := none }

/-- Resize state used by the resize witness: an active session. -/
def rsDemo : ResizeState := { isResizing := true, imageEl := some elDemo }

/-- C4: during an active resize session on a displayed element,
`resizeImage` writes width = max(rect.width + offset, 30) pixels and
height = auto, where offset is `rect.left - clientX` for the left handle
and `clientX - rect.right` for the right handle; any computed width of at
most 30 is clamped to exactly 30. The element's kind (image or video) is
preserved untouched, so the rule is identical for both. -/
theorem resizeImage_formula (st : ResizeState) (clientX : ℚ) (align : Align)
    (el : MediaElement) (hr : st.isResizing = true) (he : st.imageEl = some el) :
    ((resizeImage st clientX align).imageEl =
      some { el with
        styleWidth :=
          some (CssSize.px (max (el.rect.width + resizeOffset el.rect clientX align) 30)),
        styleHeight := some CssSize.auto }) ∧
    (el.rect.width + resizeOffset el.rect clientX align ≤ 30 →
      (resizeImage st clientX align).imageEl =
        some { el with
          styleWidth := some (CssSize.px 30),
          styleHeight := some CssSize.auto }) := by
  have hmain :
      (resizeImage st clientX align).imageEl =
        some { el with
          styleWidth :=
            some (CssSize.px (max (el.rect.width + resizeOffset el.rect clientX align) 30)),
          styleHeight := some CssSize.auto } := by
    unfold resizeImage
    rw [hr, he]
    simp
  refine ⟨hmain, fun hle => ?_⟩
  rw [hmain, max_eq_right hle]

/-- Witness for C4: dragging the left handle of an active session to
pointer x = 0 on a video whose rectangle is left 10, right 110, width 100
yields width max(100 + 10, 30) = 110 pixels and height auto. -/
theorem resizeImage_formula_witness :
    rsDemo.isResizing = true ∧
    (resizeImage rsDemo 0 Align.left).imageEl =
      some { elDemo with
        styleWidth :=
          some (CssSize.px (max (elDemo.rect.width + resizeOffset elDemo.rect 0 Align.left) 30)),
        styleHeight := some CssSize.auto } :=
  ⟨rfl, (resizeImage_formula rsDemo 0 Align.left elDemo rfl rfl).1⟩

/-- Fill state before the load event fires, used by the C5 witness. -/
def fillStDemo : FillState :=
  { status := .uploading, contentRatioHW := 1, styleWidth := none,
    styleHeight := none, preloaderHidden := false }

/-- C5: on an asset-load success event the status becomes filled, the
stored aspect ratio becomes intrinsic-height over intrinsic-width, the
preloader is hidden, and: when a saved width string parses (JavaScript
`parseInt`) to a strictly positive number n the element's styles become
width = n pixels, height = auto; when the saved width is absent, unparsable
(NaN), or non-positive, both styles are left unchanged (natural size). In
particular a legacy width above 100 is restored at exactly that pixel
count, never reinterpreted as a percentage. The hypothesis on the
intrinsic width keeps the rational division faithful to the JavaScript
ratio of a successfully loaded asset. -/
theorem imageLoadHandler_spec (media : LoadedMedia) (savedWidth : Option String)
    (st : FillState) (hw : 0 < media.intrinsicWidth) :
    (imageLoadHandler media savedWidth st).status = UiStatus.filled ∧
    (imageLoadHandler media savedWidth st).contentRatioHW =
      (media.intrinsicHeight : ℚ) / (media.intrinsicWidth : ℚ) ∧
    (imageLoadHandler media savedWidth st).preloaderHidden = true ∧
    (∀ w n, savedWidth = some w → parseIntJS w = some n → 0 < n →
      (imageLoadHandler media savedWidth st).styleWidth = some (CssSize.px (n : ℚ)) ∧
      (imageLoadHandler media savedWidth st).styleHeight = some CssSize.auto) ∧
    (savedWidth = none →
      (imageLoadHandler media savedWidth st).styleWidth = st.styleWidth ∧
      (imageLoadHandler media savedWidth st).styleHeight = st.styleHeight) ∧
    (∀ w, savedWidth = some w → parseIntJS w = none →
      (imageLoadHandler media savedWidth st).styleWidth = st.styleWidth ∧
      (imageLoadHandler media savedWidth st).styleHeight = st.styleHeight) ∧
    (∀ w n, savedWidth = some w → parseIntJS w = some n → n ≤ 0 →
      (imageLoadHandler media savedWidth st).styleWidth = st.styleWidth ∧
      (imageLoadHandler media savedWidth st).styleHeight = st.styleHeight) := by
  refine ⟨?_, ?_, ?_, ?_, ?_, ?_, ?_⟩
  · cases savedWidth with
    | none => rfl
    | some w =>
      cases hp : parseIntJS w with
      | none => simp [imageLoadHandler, hp]
      | some n => by_cases hn : 0 < n <;> simp [imageLoadHandler, hp, hn]
  · cases savedWidth with
    | none => rfl
    | some w =>
      cases hp : parseIntJS w with
      | none => simp [imageLoadHandler, hp]
      | some n => by_cases hn : 0 < n <;> simp [imageLoadHandler, hp, hn]
  · cases savedWidth with
    | none => rfl
    | some w =>
      cases hp : parseIntJS w with
      | none => simp [imageLoadHandler, hp]
      | some n => by_cases hn : 0 < n <;> simp [imageLoadHandler, hp, hn]
  · intro w n hw2 hp2 hn
    subst hw2
    constructor <;> simp [imageLoadHandler, hp2, hn]
  · intro h0
    subst h0
    exact ⟨rfl, rfl⟩
  · intro w hw2 hp2
    subst hw2
    constructor <;> simp [imageLoadHandler, hp2]
  · intro w n hw2 hp2 hle
    subst hw2
    have hn : ¬ 0 < n := not_lt.mpr hle
    constructor <;> simp [imageLoadHandler, hp2, hn]

/-- Witness for C5: a 200 by 100 image with legacy saved width "150"
(numeric, above 100, no height) is restored at exactly 150 pixels with
height auto, ratio 1/2. -/
theorem imageLoadHandler_spec_witness :
    (0 < (200 : Nat)) ∧
    (imageLoadHandler ⟨200, 100⟩ (some "150") fillStDemo).styleWidth =
      some (CssSize.px ((150 : Int) : ℚ)) ∧
    (imageLoadHandler ⟨200, 100⟩ (some "150") fillStDemo).styleHeight =
      some CssSize.auto :=
  ⟨by decide,
    (imageLoadHandler_spec ⟨200, 100⟩ (some "150") fillStDemo (by decide)).2.2.2.1
      "150" 150 rfl (by decide) (by decide)⟩

/-- C6: the element created by `fillImage` is a VIDEO carrying the
autoplay, loop, muted, playsinline and controls attributes exactly when
the url ends in ".mp4"; for every other url it is an IMG with
loading = lazy and decoding = async and none of the playback attributes. -/
theorem fillImage_classification (url : String) :
    (fillImageTag url = "VIDEO" ↔ strEndsWith url ".mp4" = true) ∧
    (strEndsWith url ".mp4" = true →
      fillImageTag url = "VIDEO" ∧
      ("autoplay", AttrValue.boolean true) ∈ fillImageAttributes url ∧
      ("loop", AttrValue.boolean true) ∈ fillImageAttributes url ∧
      ("muted", AttrValue.boolean true) ∈ fillImageAttributes url ∧
      ("playsinline", AttrValue.boolean true) ∈ fillImageAttributes url ∧
      ("controls", AttrValue.boolean true) ∈ fillImageAttributes url) ∧
    (strEndsWith url ".mp4" = false →
      fillImageTag url = "IMG" ∧
      ("src", AttrValue.str url) ∈ fillImageAttributes url ∧
      ("loading", AttrValue.str "lazy") ∈ fillImageAttributes url ∧
      ("decoding", AttrValue.str "async") ∈ fillImageAttributes url ∧
      (∀ v, ("autoplay", v) ∉ fillImageAttributes url) ∧
      (∀ v, ("controls", v) ∉ fillImageAttributes url)) := by
  cases h : strEndsWith url ".mp4" <;>
    simp [fillImageTag, isVideoUrl, fillImageAttributes, h]

/-- Witness for C6: an mp4 url is classified VIDEO with the playback
attributes; a png url is classified IMG with the loading hints. -/
theorem fillImage_classification_witness :
    fillImageTag "https://x/v.mp4" = "VIDEO" ∧
    ("autoplay", AttrValue.boolean true) ∈ fillImageAttributes "https://x/v.mp4" ∧
    fillImageTag "https://x/y.png" = "IMG" ∧
    ("loading", AttrValue.str "lazy") ∈ fillImageAttributes "https://x/y.png" :=
  ⟨((fillImage_classification "https://x/v.mp4").2.1 (by decide)).1,
   ((fillImage_classification "https://x/v.mp4").2.1 (by decide)).2.1,
   ((fillImage_classification "https://x/y.png").2.2 (by decide)).1,
   ((fillImage_classification "https://x/y.png").2.2 (by decide)).2.2.1⟩

/-- C7: whether the caption node is appended by `fillImage` equals
(not read-only) or (the initial caption was a non-empty, non-whitespace
string), and the decision is independent of every caller-supplied
configuration value, including the caller's caption-visibility field: the
constructor recomputes `showCaption` and never copies the caller's value,
and no other code writes the built configuration, so the decision made at
construction stays fixed. -/
theorem caption_visibility_decision (t : String → String) (cfg : CallerConfig)
    (readOnly : Bool) (dataCaption : Option String) :
    captionAppended (buildConfig t cfg readOnly dataCaption) =
      (!readOnly || isNotEmpty dataCaption) ∧
    (∀ cfg2 : CallerConfig,
      captionAppended (buildConfig t cfg2 readOnly dataCaption) =
        captionAppended (buildConfig t cfg readOnly dataCaption)) :=
  ⟨rfl, fun _ => rfl⟩

/-- Block in read-only mode with an upload in flight, used by the C8
counterexample: the upload-trigger button is not attached (read-only
blocks never attach it). -/
def roBlock : BlockState :=
  { readOnly := true, dataFile := some { url := some "https://x/old.png" },
    status := .uploading, preloaderBackgroundImage := "url(preview)",
    fileButtonAttached := false, notificationsShown := 0 }

/-- A failed transport envelope: success flag not 1, no file payload. -/
def failResponse : UploadResponse := { success := false, file := none }

/-- A malformed success envelope: success flag 1 but no file payload. -/
def malformedResponse : UploadResponse := { success := true, file := none }

/-- Interactive (not read-only) block with an upload in flight, used by
the C8 witness. -/
def liveBlock : BlockState :=
  { readOnly := false, dataFile := some { url := some "https://x/old.png" },
    status := .uploading, preloaderBackgroundImage := "url(preview)",
    fileButtonAttached := false, notificationsShown := 0 }

/-- C8 counterexample: for a block in read-only mode, a failure response
does not re-append the upload-trigger button — `addFileButton` is a no-op
when read-only — so the claim's unconditional "the upload-trigger button
is re-appended" fails at this input. -/
theorem onUpload_failure_readonly_counterexample :
    (failResponse.success = false ∨ failResponse.file = none) ∧
    roBlock.readOnly = true ∧
    (onUpload roBlock failResponse).fileButtonAttached = false := by
  decide

/-- C8 amended: for every upload response whose success flag is not 1 or
whose file payload is missing, the failure path (`uploadingFailed`, also
the transport error callback) runs: exactly one more error notification is
shown, the status is restored to empty with the preloader preview cleared,
the stored file data is not replaced, and the upload-trigger button is
re-appended when the block is not in read-only mode (in read-only mode
`addFileButton` is a no-op and the attachment state is unchanged). -/
theorem onUpload_failure_spec (st : BlockState) (r : UploadResponse)
    (h : r.success = false ∨ r.file = none) :
    onUpload st r = uploadingFailed st ∧
    (onUpload st r).notificationsShown = st.notificationsShown + 1 ∧
    (onUpload st r).status = UiStatus.empty ∧
    (onUpload st r).preloaderBackgroundImage = "" ∧
    (onUpload st r).dataFile = st.dataFile ∧
    (st.readOnly = false → (onUpload st r).fileButtonAttached = true) ∧
    (st.readOnly = true →
      (onUpload st r).fileButtonAttached = st.fileButtonAttached) := by
  have hcond : (r.success && r.file.isSome) = false := by
    rcases h with h | h <;> simp [h]
  have hfail : onUpload st r = uploadingFailed st := by
    unfold onUpload
    rw [hcond]
    simp
  rw [hfail]
  refine ⟨rfl, ?_⟩
  unfold uploadingFailed addFileButton hidePreloader
  cases hro : st.readOnly <;> simp [hro]

/-- Witness for the amended C8: a malformed success envelope delivered to
an interactive block shows one notification, restores the empty state,
keeps the stored file, and re-attaches the button. -/
theorem onUpload_failure_spec_witness :
    (malformedResponse.success = false ∨ malformedResponse.file = none) ∧
    (onUpload liveBlock malformedResponse).notificationsShown = 1 ∧
    (onUpload liveBlock malformedResponse).status = UiStatus.empty ∧
    (onUpload liveBlock malformedResponse).preloaderBackgroundImage = "" ∧
    (onUpload liveBlock malformedResponse).dataFile = liveBlock.dataFile ∧
    (onUpload liveBlock malformedResponse).fileButtonAttached = true := by
  have h := onUpload_failure_spec liveBlock malformedResponse (Or.inr rfl)
  exact ⟨Or.inr rfl, h.2.1, h.2.2.1, h.2.2.2.1, h.2.2.2.2.1,
    h.2.2.2.2.2.1 rfl⟩

end ImageToolSpec
